import Mathlib

/-!
Verification of the route-progress computation module and the progress
state controller of the Cycling-Motivator repository.

The geometry functions are translated from `src/utils.js`
(`haversineDistance`, `fetchRoute`, `getPositionAlongPath`), and the
controller operations from the React application component
(`handleMapClick`, `handleMarkerClick`, `resetRoute`, `startJourney`,
`addDistance`, the route-preview effect, and the celebration screen
continue button).  JavaScript numbers are modelled as real numbers;
`null`/`undefined` values as `Option`; the external routing service
response as an explicit outcome datatype.
-/

/-- A geographic point, `{lat, lng}` in the source. -/
structure Point where
  lat : ℝ
  lng : ℝ

/-- Degrees to radians: `(x * Math.PI) / 180`. -/
noncomputable def toRad (x : ℝ) : ℝ := x * Real.pi / 180

/-- Model of `Math.atan2(y, x)` from JavaScript on real inputs. -/
noncomputable def atan2 (y x : ℝ) : ℝ :=
  if 0 < x then Real.arctan (y / x)
  else if x < 0 then
    (if 0 ≤ y then Real.arctan (y / x) + Real.pi else Real.arctan (y / x) - Real.pi)
  else if 0 < y then Real.pi / 2
  else if y < 0 then -(Real.pi / 2)
  else 0

/-- The intermediate value `a` of `haversineDistance`:
`dLatSin * dLatSin + cos(toRad lat1) * cos(toRad lat2) * dLonSin * dLonSin`. -/
noncomputable def havA (coords1 coords2 : Point) : ℝ :=
  Real.sin (toRad (coords2.lat - coords1.lat) / 2) *
      Real.sin (toRad (coords2.lat - coords1.lat) / 2) +
    Real.cos (toRad coords1.lat) * Real.cos (toRad coords2.lat) *
      (Real.sin (toRad (coords2.lng - coords1.lng) / 2) *
        Real.sin (toRad (coords2.lng - coords1.lng) / 2))

/-- `haversineDistance` from `src/utils.js`: `R * c` with `R = 6371` and
`c = 2 * Math.atan2(Math.sqrt(a), Math.sqrt(1 - a))`. -/
noncomputable def haversineDistance (coords1 coords2 : Point) : ℝ :=
  6371 * (2 * atan2 (Real.sqrt (havA coords1 coords2)) (Real.sqrt (1 - havA coords1 coords2)))

/-- The loop of `getPositionAlongPath`: walk consecutive segments starting
at `cur`, with `covered` kilometres already accumulated; on the first
segment with `covered + segDist >= distanceKm` interpolate linearly inside
it, otherwise return the final point. -/
noncomputable def walkPath (cur : Point) (rest : List Point) (covered distanceKm : ℝ) : Point :=
  match rest with
  | [] => cur
  | next :: rest' =>
    if distanceKm ≤ covered + haversineDistance cur next then
      ⟨cur.lat + (next.lat - cur.lat) * ((distanceKm - covered) / haversineDistance cur next),
       cur.lng + (next.lng - cur.lng) * ((distanceKm - covered) / haversineDistance cur next)⟩
    else walkPath next rest' (covered + haversineDistance cur next) distanceKm

/-- `getPositionAlongPath` from `src/utils.js`. -/
noncomputable def getPositionAlongPath (path : List Point) (distanceKm : ℝ) : Option Point :=
  match path with
  | [] => none
  | p :: rest =>
    if distanceKm ≤ 0 then some p else some (walkPath p rest 0 distanceKm)

/-- Total geodesic length of a polyline: the sum of the haversine lengths
of its consecutive segments. -/
noncomputable def pathLength : List Point → ℝ
  | [] => 0
  | [_] => 0
  | p :: q :: rest => haversineDistance p q + pathLength (q :: rest)

lemma arctan_nonneg_of_nonneg {x : ℝ} (hx : 0 ≤ x) : 0 ≤ Real.arctan x := by
  have h := Real.arctan_strictMono.monotone hx
  rwa [Real.arctan_zero] at h

lemma atan2_nonneg {y x : ℝ} (hy : 0 ≤ y) (hx : 0 ≤ x) : 0 ≤ atan2 y x := by
  unfold atan2
  by_cases h1 : 0 < x
  · rw [if_pos h1]
    exact arctan_nonneg_of_nonneg (div_nonneg hy (le_of_lt h1))
  · rw [if_neg h1]
    have h2 : ¬x < 0 := not_lt.mpr hx
    rw [if_neg h2]
    by_cases h3 : 0 < y
    · rw [if_pos h3]
      positivity
    · rw [if_neg h3]
      have h4 : ¬y < 0 := not_lt.mpr hy
      rw [if_neg h4]

lemma haversineDistance_nonneg (c1 c2 : Point) : 0 ≤ haversineDistance c1 c2 := by
  unfold haversineDistance
  have h := atan2_nonneg (Real.sqrt_nonneg (havA c1 c2)) (Real.sqrt_nonneg (1 - havA c1 c2))
  nlinarith

lemma pathLength_nonneg (P : List Point) : 0 ≤ pathLength P := by
  match P with
  | [] => simp [pathLength]
  | [p] => simp [pathLength]
  | p :: q :: rest =>
    have h1 := haversineDistance_nonneg p q
    have h2 := pathLength_nonneg (q :: rest)
    rw [pathLength]
    linarith

lemma walkPath_of_length_lt (rest : List Point) (cur : Point) (covered d : ℝ)
    (h : covered + pathLength (cur :: rest) < d) :
    walkPath cur rest covered d = (cur :: rest).getLast (List.cons_ne_nil _ _) := by
  match rest with
  | [] => rw [walkPath]; rfl
  | next :: rest' =>
    rw [pathLength] at h
    have htail := pathLength_nonneg (next :: rest')
    have hseg : ¬d ≤ covered + haversineDistance cur next := by linarith
    rw [walkPath, if_neg hseg]
    have hrec : (covered + haversineDistance cur next) + pathLength (next :: rest') < d := by
      linarith
    rw [walkPath_of_length_lt rest' next _ d hrec]
    exact (List.getLast_cons (List.cons_ne_nil _ _)).symm

/-- Claim C6: the geodesic distance is symmetric and vanishes on the
diagonal: for all points A and B, `haversineDistance A B =
haversineDistance B A`, and `haversineDistance A A = 0`. -/
theorem haversine_symm_and_self_zero (A B : Point) :
    haversineDistance A B = haversineDistance B A ∧ haversineDistance A A = 0 := by
  constructor
  · have hsin : ∀ x y : ℝ,
        Real.sin (toRad (x - y) / 2) * Real.sin (toRad (x - y) / 2) =
          Real.sin (toRad (y - x) / 2) * Real.sin (toRad (y - x) / 2) := by
      intro x y
      have hx : toRad (x - y) / 2 = -(toRad (y - x) / 2) := by unfold toRad; ring
      rw [hx, Real.sin_neg]
      ring
    have ha : havA A B = havA B A := by
      unfold havA
      rw [hsin B.lat A.lat, hsin B.lng A.lng]
      ring
    unfold haversineDistance
    rw [ha]
  · have ha : havA A A = 0 := by
      unfold havA
      have h0 : toRad (A.lat - A.lat) = 0 := by unfold toRad; ring
      have h1 : toRad (A.lng - A.lng) = 0 := by unfold toRad; ring
      rw [h0, h1]
      simp
    unfold haversineDistance
    rw [ha]
    rw [Real.sqrt_zero, sub_zero, Real.sqrt_one]
    unfold atan2
    rw [if_pos one_pos]
    simp [Real.arctan_zero]

/-- Claim C1 (amended): `getPositionAlongPath P d` returns `none` when `P`
is empty; returns `P[0]` when `P` is non-empty and `d <= 0`; and returns the
final point of `P` when `P` is non-empty and `d` is strictly greater than
the total geodesic length of `P`.  (At `d` exactly equal to the total
length the sampler may return an earlier point when the path ends in
zero-length segments; see the counterexample.) -/
theorem getPositionAlongPath_boundary (P : List Point) (d : ℝ) :
    (P = [] → getPositionAlongPath P d = none) ∧
    (∀ h : P ≠ [], d ≤ 0 → getPositionAlongPath P d = some (P.head h)) ∧
    (∀ h : P ≠ [], pathLength P < d →
      getPositionAlongPath P d = some (P.getLast h)) := by
  refine ⟨?_, ?_, ?_⟩
  · intro h
    subst h
    rfl
  · intro h hd
    match P with
    | p :: rest =>
      rw [getPositionAlongPath, if_pos hd]
      rfl
  · intro h hlen
    match P with
    | p :: rest =>
      have h0 : ¬d ≤ 0 := by
        have := pathLength_nonneg (p :: rest)
        intro hc
        linarith
      rw [getPositionAlongPath, if_neg h0]
      have hw : (0 : ℝ) + pathLength (p :: rest) < d := by linarith
      rw [walkPath_of_length_lt rest p 0 d hw]

/-- Witness for C1 at concrete inputs: the empty path, a negative
distance, and a distance beyond the total length. -/
theorem getPositionAlongPath_boundary_witness :
    getPositionAlongPath ([] : List Point) 5 = none ∧
    getPositionAlongPath [Point.mk 0 0] (-1) = some (Point.mk 0 0) ∧
    getPositionAlongPath [Point.mk 0 0] 1 = some (Point.mk 0 0) := by
  refine ⟨(getPositionAlongPath_boundary [] 5).1 rfl, ?_, ?_⟩
  · exact (getPositionAlongPath_boundary [Point.mk 0 0] (-1)).2.1
      (List.cons_ne_nil _ _) (by norm_num)
  · exact (getPositionAlongPath_boundary [Point.mk 0 0] 1).2.2
      (List.cons_ne_nil _ _) (by rw [pathLength]; norm_num)

/-- Counterexample to C1 as stated: the two-point path
`[(90, 0), (90, 1)]` consists of two distinct points at the north pole
whose haversine distance is 0, so its total geodesic length is 0; at
`d = 0` (which is equal to the total length) the sampler returns the FIRST
point, not the final point, because the `d <= 0` clause takes priority. -/
theorem getPositionAlongPath_total_length_counterexample :
    pathLength [Point.mk 90 0, Point.mk 90 1] ≤ 0 ∧
    getPositionAlongPath [Point.mk 90 0, Point.mk 90 1] 0 ≠
      some (List.getLast [Point.mk 90 0, Point.mk 90 1] (List.cons_ne_nil _ _)) := by
  have hrad : toRad 90 = Real.pi / 2 := by unfold toRad; ring
  have ha : havA (Point.mk 90 0) (Point.mk 90 1) = 0 := by
    unfold havA
    simp only
    have h0 : toRad (90 - 90) = 0 := by unfold toRad; ring
    rw [h0, hrad, Real.cos_pi_div_two]
    simp
  have hd : haversineDistance (Point.mk 90 0) (Point.mk 90 1) = 0 := by
    unfold haversineDistance
    rw [ha, Real.sqrt_zero, sub_zero, Real.sqrt_one]
    unfold atan2
    rw [if_pos one_pos]
    simp [Real.arctan_zero]
  constructor
  · rw [pathLength, pathLength, hd]
    norm_num
  · have hres : getPositionAlongPath [Point.mk 90 0, Point.mk 90 1] 0 =
        some (Point.mk 90 0) := by
      rw [getPositionAlongPath, if_pos (le_refl 0)]
    rw [hres]
    have hlast : List.getLast [Point.mk 90 0, Point.mk 90 1] (List.cons_ne_nil _ _) =
        Point.mk 90 1 := rfl
    rw [hlast]
    intro hc
    have heq : Point.mk 90 0 = Point.mk 90 1 := Option.some.inj hc
    have : (0 : ℝ) = 1 := congrArg Point.lng heq
    norm_num at this

/-- One route entry of the routing service response: `geometry.coordinates`
is a list of `[lng, lat]` pairs, `distance` is in meters. -/
structure OsrmRoute where
  coordinates : List (ℝ × ℝ)
  distance : ℝ

/-- What the network and JSON layer of `fetchRoute` produced before the
code inspects it: either `fetch`/`json` threw (network error, malformed
body), or a parsed body with an optional `code` field and an optional
`routes` array. -/
inductive FetchOutcome where
  | thrown (msg : String)
  | parsed (code : Option String) (routes : Option (List OsrmRoute))

/-- The value `fetchRoute` resolves with: `{coordinates, distance}` on
success or `{error}` on failure. -/
inductive FetchResult where
  | ok (coordinates : List Point) (distance : ℝ)
  | err (msg : String)

/-- `fetchRoute` from `src/utils.js`, as a function of the service
outcome: any thrown error is caught and returned as `{error: message}`;
a body with `code !== Ok`, a missing `routes` array, or an empty `routes`
array raises `No route found` which the catch block returns as the error
message; otherwise the first route is converted (`[lng, lat]` pairs to
`{lat, lng}` points, meters to kilometers). -/
noncomputable def fetchRoute (o : FetchOutcome) : FetchResult :=
  match o with
  | FetchOutcome.thrown msg => FetchResult.err msg
  | FetchOutcome.parsed code routes =>
    if code ≠ some "Ok" then FetchResult.err "No route found"
    else
      match routes with
      | none => FetchResult.err "No route found"
      | some [] => FetchResult.err "No route found"
      | some (r :: _) =>
          FetchResult.ok (r.coordinates.map fun c => Point.mk c.2 c.1) (r.distance / 1000)

/-- Claim C5: `fetchRoute` never raises past its boundary: every outcome
(network error, response code other than Ok, missing or empty routes
array) yields an error record carrying a message string, and a successful
outcome yields the first route converted to `{lat, lng}` points together
with its meter distance divided by 1000. -/
theorem fetchRoute_total (o : FetchOutcome) :
    (∀ msg, o = FetchOutcome.thrown msg → fetchRoute o = FetchResult.err msg) ∧
    (∀ code routes, o = FetchOutcome.parsed code routes → code ≠ some "Ok" →
      fetchRoute o = FetchResult.err "No route found") ∧
    (∀ code, o = FetchOutcome.parsed code none →
      fetchRoute o = FetchResult.err "No route found") ∧
    (∀ code, o = FetchOutcome.parsed code (some []) →
      fetchRoute o = FetchResult.err "No route found") ∧
    (∀ r rest, o = FetchOutcome.parsed (some "Ok") (some (r :: rest)) →
      fetchRoute o =
        FetchResult.ok (r.coordinates.map fun c => Point.mk c.2 c.1) (r.distance / 1000)) := by
  refine ⟨?_, ?_, ?_, ?_, ?_⟩
  · intro msg h
    subst h
    rfl
  · intro code routes h hcode
    subst h
    simp only [fetchRoute]
    rw [if_pos hcode]
  · intro code h
    subst h
    simp only [fetchRoute]
    by_cases hc : code = some "Ok"
    · rw [if_neg (by simp [hc])]
    · rw [if_pos hc]
  · intro code h
    subst h
    simp only [fetchRoute]
    by_cases hc : code = some "Ok"
    · rw [if_neg (by simp [hc])]
    · rw [if_pos hc]
  · intro r rest h
    subst h
    simp only [fetchRoute]
    rw [if_neg (by simp)]

/-- Witness for C5 at concrete outcomes: a thrown network error, a
non-Ok status code, and a successful response with one route. -/
theorem fetchRoute_total_witness :
    fetchRoute (FetchOutcome.thrown "network down") = FetchResult.err "network down" ∧
    fetchRoute (FetchOutcome.parsed (some "NoRoute") (some [OsrmRoute.mk [] 0])) =
      FetchResult.err "No route found" ∧
    fetchRoute (FetchOutcome.parsed (some "Ok") (some [OsrmRoute.mk [(5, 10)] 2000])) =
      FetchResult.ok [Point.mk 10 5] 2 := by
  refine ⟨?_, ?_, ?_⟩
  · exact (fetchRoute_total _).1 "network down" rfl
  · exact (fetchRoute_total _).2.1 (some "NoRoute") (some [OsrmRoute.mk [] 0]) rfl (by simp)
  · have h := (fetchRoute_total _).2.2.2.2 (OsrmRoute.mk [(5, 10)] 2000) [] rfl
    rw [h]
    norm_num

/-- The application phase strings: SETUP, TRACKING, CELEBRATION. -/
inductive AppPhase where
  | SETUP
  | TRACKING
  | CELEBRATION
deriving DecidableEq

/-- The `route` state object: `{start, end, path, distance}`.  The `end`
field is named `endPoint` because `end` is reserved in Lean. -/
structure Route where
  start : Option Point
  endPoint : Option Point
  path : List Point
  distance : ℝ

/-- The `progress` state object: `{currentKm, totalKm, percentage}`. -/
structure Progress where
  currentKm : ℝ
  totalKm : ℝ
  percentage : ℝ

/-- The controller state owned by the App component: phase, route and
progress. -/
structure AppState where
  appState : AppPhase
  route : Route
  progress : Progress

/-- Which marker a marker-click event names: the string argument
`start` or `end` of `handleMarkerClick`. -/
inductive MarkerType where
  | startMarker
  | endMarker

/-- The initial component state: phase SETUP, `start` pre-set to the
default location (Ried im Innkreis), no end point, empty path, distance 0,
all progress fields 0. -/
noncomputable def initialState : AppState :=
  { appState := AppPhase.SETUP,
    route := { start := some (Point.mk 48.20967 13.48831), endPoint := none,
               path := [], distance := 0 },
    progress := { currentKm := 0, totalKm := 0, percentage := 0 } }

/-- `handleMapClick`: ignored outside SETUP; otherwise the click sets
`start` if it is unset, else sets `end` if it is unset, else does
nothing. -/
def handleMapClick (s : AppState) (latlng : Point) : AppState :=
  if s.appState ≠ AppPhase.SETUP then s
  else
    match s.route.start with
    | none => { s with route := { s.route with start := some latlng } }
    | some _ =>
      match s.route.endPoint with
      | none => { s with route := { s.route with endPoint := some latlng } }
      | some _ => s

/-- `handleMarkerClick`: ignored outside SETUP; otherwise clears the named
marker and also clears the path and distance. -/
def handleMarkerClick (s : AppState) (t : MarkerType) : AppState :=
  if s.appState ≠ AppPhase.SETUP then s
  else
    match t with
    | MarkerType.startMarker =>
        { s with route := { s.route with start := none, path := [], distance := 0 } }
    | MarkerType.endMarker =>
        { s with route := { s.route with endPoint := none, path := [], distance := 0 } }

/-- The route-preview effect (`calculatePreview`): when in SETUP with both
points set and an empty path, fetch the route; on success store its path
and distance, on failure change nothing. -/
noncomputable def calculatePreview (s : AppState) (f : FetchResult) : AppState :=
  match s.appState, s.route.start, s.route.endPoint, s.route.path, f with
  | AppPhase.SETUP, some _, some _, [], FetchResult.ok coords dist =>
      { s with route := { s.route with path := coords, distance := dist } }
  | _, _, _, _, _ => s

/-- `resetRoute`: restore the default route (start pre-seeded, no end),
zero progress, and phase SETUP. -/
noncomputable def resetRoute (_ : AppState) : AppState :=
  { appState := AppPhase.SETUP,
    route := { start := some (Point.mk 48.20967 13.48831), endPoint := none,
               path := [], distance := 0 },
    progress := { currentKm := 0, totalKm := 0, percentage := 0 } }

/-- `startJourney`, as a function of the state and of the result the
route fetch would produce: requires both points; uses the pre-computed
`route.distance` when positive, else a fresh fetch result (used without a
positivity check), else the haversine fallback guarded by `total > 0`. -/
noncomputable def startJourney (s : AppState) (f : FetchResult) : AppState :=
  match s.route.start, s.route.endPoint with
  | some st, some en =>
    if 0 < s.route.distance then
      { s with progress := { currentKm := 0, totalKm := s.route.distance, percentage := 0 },
               appState := AppPhase.TRACKING }
    else
      match f with
      | FetchResult.ok coords dist =>
          { s with route := { s.route with path := coords, distance := dist },
                   progress := { currentKm := 0, totalKm := dist, percentage := 0 },
                   appState := AppPhase.TRACKING }
      | FetchResult.err _ =>
          if 0 < haversineDistance st en then
            { s with progress := { currentKm := 0, totalKm := haversineDistance st en,
                                   percentage := 0 },
                     appState := AppPhase.TRACKING }
          else s
  | _, _ => s

/-- `addDistance`, as a function of the state and of the result of
`parseFloat` on the input string (`none` models NaN): a valid positive
increment clamps `currentKm` at `totalKm`, recomputes the percentage as
`newCurrent / totalKm`, and sets the phase to CELEBRATION; anything else
changes nothing. -/
noncomputable def addDistance (s : AppState) (input : Option ℝ) : AppState :=
  match input with
  | none => s
  | some added =>
    if 0 < added then
      { s with
        progress :=
          { currentKm := min (s.progress.currentKm + added) s.progress.totalKm,
            totalKm := s.progress.totalKm,
            percentage := min (s.progress.currentKm + added) s.progress.totalKm /
              s.progress.totalKm },
        appState := AppPhase.CELEBRATION }
    else s

/-- The celebration-screen button that returns to the map:
`setAppState(TRACKING)`. -/
def continueJourney (s : AppState) : AppState :=
  { s with appState := AppPhase.TRACKING }

/-- One controller operation, with arbitrary service responses; the
add-distance and continue events carry the phase guard of the UI that
dispatches them (the input box exists only in TRACKING, the continue
button only in CELEBRATION). -/
inductive ControllerStep : AppState → AppState → Prop where
  | mapClick (s : AppState) (p : Point) : ControllerStep s (handleMapClick s p)
  | markerClick (s : AppState) (t : MarkerType) : ControllerStep s (handleMarkerClick s t)
  | preview (s : AppState) (f : FetchResult) : ControllerStep s (calculatePreview s f)
  | reset (s : AppState) : ControllerStep s (resetRoute s)
  | journey (s : AppState) (f : FetchResult) : ControllerStep s (startJourney s f)
  | add (s : AppState) (i : Option ℝ) (h : s.appState = AppPhase.TRACKING) :
      ControllerStep s (addDistance s i)
  | cont (s : AppState) (h : s.appState = AppPhase.CELEBRATION) :
      ControllerStep s (continueJourney s)

/-- States reachable from the initial state by controller operations. -/
inductive Reachable : AppState → Prop where
  | init : Reachable initialState
  | step {s s' : AppState} : Reachable s → ControllerStep s s' → Reachable s'

/-- A controller operation whose route fetch, when it succeeds, reports a
positive distance. -/
inductive GoodStep : AppState → AppState → Prop where
  | mapClick (s : AppState) (p : Point) : GoodStep s (handleMapClick s p)
  | markerClick (s : AppState) (t : MarkerType) : GoodStep s (handleMarkerClick s t)
  | preview (s : AppState) (f : FetchResult) : GoodStep s (calculatePreview s f)
  | reset (s : AppState) : GoodStep s (resetRoute s)
  | journey (s : AppState) (f : FetchResult)
      (hf : ∀ c d, f = FetchResult.ok c d → 0 < d) : GoodStep s (startJourney s f)
  | add (s : AppState) (i : Option ℝ) (h : s.appState = AppPhase.TRACKING) :
      GoodStep s (addDistance s i)
  | cont (s : AppState) (h : s.appState = AppPhase.CELEBRATION) :
      GoodStep s (continueJourney s)

/-- States reachable by controller operations when every successful route
fetch reports a positive distance. -/
inductive GoodReachable : AppState → Prop where
  | init : GoodReachable initialState
  | step {s s' : AppState} : GoodReachable s → GoodStep s s' → GoodReachable s'

/-- The percentage invariant of the Progress record, together with the
fact that makes the percentage division safe: every TRACKING or
CELEBRATION state has a positive total. -/
def progressInv (s : AppState) : Prop :=
  (0 < s.progress.totalKm →
    s.progress.percentage = s.progress.currentKm / s.progress.totalKm) ∧
  (s.progress.totalKm = 0 → s.progress.percentage = 0) ∧
  ((s.appState = AppPhase.TRACKING ∨ s.appState = AppPhase.CELEBRATION) →
    0 < s.progress.totalKm)

lemma handleMapClick_frame (s : AppState) (p : Point) :
    (handleMapClick s p).progress = s.progress ∧
    (handleMapClick s p).appState = s.appState := by
  unfold handleMapClick
  by_cases h : s.appState ≠ AppPhase.SETUP
  · rw [if_pos h]
    exact ⟨rfl, rfl⟩
  · rw [if_neg h]
    match hs : s.route.start with
    | none => exact ⟨rfl, rfl⟩
    | some _ =>
      match he : s.route.endPoint with
      | none => exact ⟨rfl, rfl⟩
      | some _ => exact ⟨rfl, rfl⟩

lemma handleMarkerClick_frame (s : AppState) (t : MarkerType) :
    (handleMarkerClick s t).progress = s.progress ∧
    (handleMarkerClick s t).appState = s.appState := by
  unfold handleMarkerClick
  by_cases h : s.appState ≠ AppPhase.SETUP
  · rw [if_pos h]
    exact ⟨rfl, rfl⟩
  · rw [if_neg h]
    match t with
    | MarkerType.startMarker => exact ⟨rfl, rfl⟩
    | MarkerType.endMarker => exact ⟨rfl, rfl⟩

lemma calculatePreview_frame (s : AppState) (f : FetchResult) :
    (calculatePreview s f).progress = s.progress ∧
    (calculatePreview s f).appState = s.appState := by
  rw [calculatePreview.eq_def]
  split
  · exact ⟨rfl, rfl⟩
  · exact ⟨rfl, rfl⟩

lemma progressInv_of_frame {s s' : AppState} (hinv : progressInv s)
    (hp : s'.progress = s.progress) (ha : s'.appState = s.appState) :
    progressInv s' := by
  unfold progressInv at hinv ⊢
  rw [hp, ha]
  exact hinv

lemma addDistance_some (s : AppState) (a : ℝ) :
    addDistance s (some a) =
      if 0 < a then
        { s with
          progress :=
            { currentKm := min (s.progress.currentKm + a) s.progress.totalKm,
              totalKm := s.progress.totalKm,
              percentage := min (s.progress.currentKm + a) s.progress.totalKm /
                s.progress.totalKm },
          appState := AppPhase.CELEBRATION }
      else s := rfl

lemma startJourney_ok_eq (s : AppState) (st en : Point) (coords : List Point) (dist : ℝ)
    (h1 : s.route.start = some st) (h2 : s.route.endPoint = some en) :
    startJourney s (FetchResult.ok coords dist) =
      if 0 < s.route.distance then
        { s with progress := { currentKm := 0, totalKm := s.route.distance, percentage := 0 },
                 appState := AppPhase.TRACKING }
      else
        { s with route := { s.route with path := coords, distance := dist },
                 progress := { currentKm := 0, totalKm := dist, percentage := 0 },
                 appState := AppPhase.TRACKING } := by
  rw [startJourney.eq_def, h1, h2]

lemma startJourney_err_eq (s : AppState) (st en : Point) (m : String)
    (h1 : s.route.start = some st) (h2 : s.route.endPoint = some en) :
    startJourney s (FetchResult.err m) =
      if 0 < s.route.distance then
        { s with progress := { currentKm := 0, totalKm := s.route.distance, percentage := 0 },
                 appState := AppPhase.TRACKING }
      else
        if 0 < haversineDistance st en then
          { s with progress := { currentKm := 0, totalKm := haversineDistance st en,
                                 percentage := 0 },
                   appState := AppPhase.TRACKING }
        else s := by
  rw [startJourney.eq_def, h1, h2]

lemma startJourney_no_points (s : AppState) (f : FetchResult)
    (h : s.route.start = none ∨ s.route.endPoint = none) :
    startJourney s f = s := by
  rcases h1 : s.route.start with _ | st <;> rcases h2 : s.route.endPoint with _ | en <;>
    rw [startJourney.eq_def, h1, h2]
  rcases h with h | h
  · rw [h1] at h
    cases h
  · rw [h2] at h
    cases h

lemma goodStep_preserves {s s' : AppState} (hinv : progressInv s)
    (hstep : GoodStep s s') : progressInv s' := by
  cases hstep with
  | mapClick p =>
    exact progressInv_of_frame hinv (handleMapClick_frame s p).1 (handleMapClick_frame s p).2
  | markerClick t =>
    exact progressInv_of_frame hinv (handleMarkerClick_frame s t).1
      (handleMarkerClick_frame s t).2
  | preview f =>
    exact progressInv_of_frame hinv (calculatePreview_frame s f).1 (calculatePreview_frame s f).2
  | reset =>
    refine ⟨fun h => ?_, fun _ => rfl, fun h => ?_⟩
    · simp [resetRoute] at h
    · rcases h with h | h <;> simp [resetRoute] at h
  | journey f hf =>
    rcases h1 : s.route.start with _ | st
    · rw [startJourney_no_points s f (Or.inl h1)]
      exact hinv
    · rcases h2 : s.route.endPoint with _ | en
      · rw [startJourney_no_points s f (Or.inr h2)]
        exact hinv
      · cases f with
        | ok coords dist =>
          rw [startJourney_ok_eq s st en coords dist h1 h2]
          by_cases hd : 0 < s.route.distance
          · rw [if_pos hd]
            exact ⟨fun _ => (zero_div _).symm, fun _ => rfl, fun _ => hd⟩
          · rw [if_neg hd]
            have hdist : 0 < dist := hf coords dist rfl
            exact ⟨fun _ => (zero_div _).symm, fun _ => rfl, fun _ => hdist⟩
        | err m =>
          rw [startJourney_err_eq s st en m h1 h2]
          by_cases hd : 0 < s.route.distance
          · rw [if_pos hd]
            exact ⟨fun _ => (zero_div _).symm, fun _ => rfl, fun _ => hd⟩
          · rw [if_neg hd]
            by_cases hh : 0 < haversineDistance st en
            · rw [if_pos hh]
              exact ⟨fun _ => (zero_div _).symm, fun _ => rfl, fun _ => hh⟩
            · rw [if_neg hh]
              exact hinv
  | add i h =>
    rcases i with _ | added
    · exact hinv
    · rw [addDistance_some]
      by_cases ha : 0 < added
      · rw [if_pos ha]
        have htot : 0 < s.progress.totalKm := hinv.2.2 (Or.inl h)
        exact ⟨fun _ => rfl,
          fun h0 => absurd ((show s.progress.totalKm = 0 from h0) ▸ htot) (lt_irrefl 0),
          fun _ => htot⟩
      · rw [if_neg ha]
        exact hinv
  | cont h =>
    have htot : 0 < s.progress.totalKm := hinv.2.2 (Or.inr h)
    exact ⟨fun _ => hinv.1 htot,
      fun h0 => absurd ((show s.progress.totalKm = 0 from h0) ▸ htot) (lt_irrefl 0),
      fun _ => htot⟩

/-- Claim C2 (amended): in every state reachable by the controller's
operations, provided every successful route fetch reports a positive
distance, the percentage equals `currentKm / totalKm` whenever
`totalKm > 0`, equals `0` whenever `totalKm = 0`, and every TRACKING or
CELEBRATION state has `totalKm > 0`, so the percentage division of
`addDistance` (dispatched only in TRACKING) is never performed with a
zero divisor.  Without the positivity assumption the invariant fails;
see the counterexample. -/
theorem reachable_progress_invariant (s : AppState) (h : GoodReachable s) :
    progressInv s := by
  induction h with
  | init =>
    refine ⟨fun h0 => ?_, fun _ => rfl, fun h0 => ?_⟩
    · simp [initialState] at h0
    · rcases h0 with h0 | h0 <;> simp [initialState] at h0
  | step _ hstep ih => exact goodStep_preserves ih hstep

/-- Witness for C2: the initial state is reachable and satisfies the
invariant. -/
theorem reachable_progress_invariant_witness : progressInv initialState :=
  reachable_progress_invariant initialState GoodReachable.init

/-- Counterexample to C2 as stated: clicking an end point on the map and
starting the journey while the route fetch succeeds with distance 0 (as
happens when the service reports a zero-length route) produces a
reachable TRACKING state whose `totalKm` is 0; a valid add-distance event
is then applied there (the phase moves to CELEBRATION), so the
percentage division `newCurrent / totalKm` IS performed with a zero
divisor (in JavaScript it produces NaN, not 0). -/
theorem percentage_division_counterexample :
    Reachable (startJourney (handleMapClick initialState (Point.mk 48 13))
        (FetchResult.ok [] 0)) ∧
    (startJourney (handleMapClick initialState (Point.mk 48 13))
        (FetchResult.ok [] 0)).appState = AppPhase.TRACKING ∧
    (startJourney (handleMapClick initialState (Point.mk 48 13))
        (FetchResult.ok [] 0)).progress.totalKm = 0 ∧
    (addDistance (startJourney (handleMapClick initialState (Point.mk 48 13))
        (FetchResult.ok [] 0)) (some 1)).appState = AppPhase.CELEBRATION := by
  have hclick : handleMapClick initialState (Point.mk 48 13) =
      { appState := AppPhase.SETUP,
        route := { start := some (Point.mk 48.20967 13.48831),
                   endPoint := some (Point.mk 48 13), path := [], distance := 0 },
        progress := { currentKm := 0, totalKm := 0, percentage := 0 } } := by
    rw [handleMapClick]
    rw [if_neg (by simp [initialState])]
    rfl
  have hstart : startJourney (handleMapClick initialState (Point.mk 48 13))
      (FetchResult.ok [] 0) =
      { appState := AppPhase.TRACKING,
        route := { start := some (Point.mk 48.20967 13.48831),
                   endPoint := some (Point.mk 48 13), path := [], distance := 0 },
        progress := { currentKm := 0, totalKm := 0, percentage := 0 } } := by
    rw [hclick]
    rw [startJourney_ok_eq _ (Point.mk 48.20967 13.48831) (Point.mk 48 13) [] 0 rfl rfl]
    rw [if_neg (by norm_num)]
  refine ⟨?_, ?_, ?_, ?_⟩
  · exact Reachable.step (Reachable.step Reachable.init
      (ControllerStep.mapClick initialState (Point.mk 48 13)))
      (ControllerStep.journey _ (FetchResult.ok [] 0))
  · rw [hstart]
  · rw [hstart]
  · rw [hstart, addDistance_some, if_pos (by norm_num)]

/-- A SETUP state with both points chosen and a pre-computed positive
route distance. -/
noncomputable def sampleSetupReady : AppState :=
  { appState := AppPhase.SETUP,
    route := { start := some (Point.mk 0 0), endPoint := some (Point.mk 0 1),
               path := [], distance := 10 },
    progress := { currentKm := 0, totalKm := 0, percentage := 0 } }

/-- A TRACKING state part-way through a 10 km journey. -/
noncomputable def sampleTracking : AppState :=
  { appState := AppPhase.TRACKING,
    route := { start := some (Point.mk 0 0), endPoint := some (Point.mk 0 1),
               path := [], distance := 10 },
    progress := { currentKm := 3, totalKm := 10, percentage := 3 / 10 } }

/-- A SETUP state in which the start marker has been cleared. -/
noncomputable def sampleSetupEmpty : AppState :=
  { appState := AppPhase.SETUP,
    route := { start := none, endPoint := none, path := [], distance := 0 },
    progress := { currentKm := 0, totalKm := 0, percentage := 0 } }

/-- Claim C3 (amended): from a SETUP state, `startJourney` moves the
phase to TRACKING exactly when both points are set and either the
pre-computed route distance is positive, or the fresh fetch succeeded
(its distance is then used as the total WITHOUT a positivity check), or
the haversine fallback is positive; in every other case the state is
left unchanged, so the phase stays SETUP. -/
theorem startJourney_guard (s : AppState) (f : FetchResult)
    (hs : s.appState = AppPhase.SETUP) :
    ((startJourney s f).appState = AppPhase.TRACKING ↔
      ∃ st en, s.route.start = some st ∧ s.route.endPoint = some en ∧
        (0 < s.route.distance ∨ (∃ c d, f = FetchResult.ok c d) ∨
          0 < haversineDistance st en)) ∧
    ((startJourney s f).appState ≠ AppPhase.TRACKING → startJourney s f = s) := by
  rcases h1 : s.route.start with _ | st
  · rw [startJourney_no_points s f (Or.inl h1)]
    refine ⟨⟨fun ht => ?_, fun hex => ?_⟩, fun _ => rfl⟩
    · rw [hs] at ht
      exact absurd ht (by simp)
    · rcases hex with ⟨st, en, hst, _⟩
      exact Option.noConfusion hst
  · rcases h2 : s.route.endPoint with _ | en
    · rw [startJourney_no_points s f (Or.inr h2)]
      refine ⟨⟨fun ht => ?_, fun hex => ?_⟩, fun _ => rfl⟩
      · rw [hs] at ht
        exact absurd ht (by simp)
      · rcases hex with ⟨st, en, _, hen, _⟩
        exact Option.noConfusion hen
    · cases f with
      | ok coords dist =>
        rw [startJourney_ok_eq s st en coords dist h1 h2]
        by_cases hd : 0 < s.route.distance
        · rw [if_pos hd]
          exact ⟨⟨fun _ => ⟨st, en, rfl, rfl, Or.inl hd⟩, fun _ => rfl⟩,
            fun hne => absurd rfl hne⟩
        · rw [if_neg hd]
          exact ⟨⟨fun _ => ⟨st, en, rfl, rfl, Or.inr (Or.inl ⟨coords, dist, rfl⟩)⟩,
            fun _ => rfl⟩, fun hne => absurd rfl hne⟩
      | err m =>
        rw [startJourney_err_eq s st en m h1 h2]
        by_cases hd : 0 < s.route.distance
        · rw [if_pos hd]
          exact ⟨⟨fun _ => ⟨st, en, rfl, rfl, Or.inl hd⟩, fun _ => rfl⟩,
            fun hne => absurd rfl hne⟩
        · rw [if_neg hd]
          by_cases hh : 0 < haversineDistance st en
          · rw [if_pos hh]
            exact ⟨⟨fun _ => ⟨st, en, rfl, rfl, Or.inr (Or.inr hh)⟩, fun _ => rfl⟩,
              fun hne => absurd rfl hne⟩
          · rw [if_neg hh]
            refine ⟨⟨fun ht => ?_, fun hex => ?_⟩, fun _ => rfl⟩
            · rw [hs] at ht
              exact absurd ht (by simp)
            · rcases hex with ⟨st', en', hst, hen, hcase⟩
              injection hst with hst'
              injection hen with hen'
              subst hst'
              subst hen'
              rcases hcase with hc | ⟨c, d, hcd⟩ | hc
              · exact absurd hc hd
              · exact FetchResult.noConfusion hcd
              · exact absurd hc hh

/-- Witness for C3: a SETUP state with a pre-computed 10 km route enters
TRACKING even when the fresh fetch would fail. -/
theorem startJourney_guard_witness :
    sampleSetupReady.appState = AppPhase.SETUP ∧
    (startJourney sampleSetupReady (FetchResult.err "boom")).appState =
      AppPhase.TRACKING :=
  ⟨rfl, (startJourney_guard sampleSetupReady (FetchResult.err "boom") rfl).1.mpr
    ⟨Point.mk 0 0, Point.mk 0 1, rfl, rfl, Or.inl (by norm_num [sampleSetupReady])⟩⟩

/-- Counterexample to C3 as stated: with both points set, no pre-computed
distance, and a fetch that succeeds with distance 0, `startJourney`
transitions to TRACKING with a resolved total distance of 0, which is not
a positive number; the claimed refusal does not happen. -/
theorem startJourney_guard_counterexample :
    (startJourney
      { appState := AppPhase.SETUP,
        route := { start := some (Point.mk 0 0), endPoint := some (Point.mk 0 1),
                   path := [], distance := 0 },
        progress := { currentKm := 0, totalKm := 0, percentage := 0 } }
      (FetchResult.ok [] 0)).appState = AppPhase.TRACKING ∧
    (startJourney
      { appState := AppPhase.SETUP,
        route := { start := some (Point.mk 0 0), endPoint := some (Point.mk 0 1),
                   path := [], distance := 0 },
        progress := { currentKm := 0, totalKm := 0, percentage := 0 } }
      (FetchResult.ok [] 0)).progress.totalKm = 0 := by
  rw [startJourney_ok_eq _ (Point.mk 0 0) (Point.mk 0 1) [] 0 rfl rfl]
  rw [if_neg (by norm_num)]
  exact ⟨rfl, rfl⟩

/-- Claim C4: in a TRACKING state, a valid add of `a > 0` sets
`currentKm` to `min (currentKm + a) totalKm` (so it never exceeds
`totalKm`), recomputes the percentage as the new current over the total,
and moves the phase to CELEBRATION unconditionally. -/
theorem addDistance_valid (s : AppState) (a : ℝ)
    (hs : s.appState = AppPhase.TRACKING) (ha : 0 < a) :
    addDistance s (some a) =
      { s with
        progress :=
          { currentKm := min (s.progress.currentKm + a) s.progress.totalKm,
            totalKm := s.progress.totalKm,
            percentage := min (s.progress.currentKm + a) s.progress.totalKm /
              s.progress.totalKm },
        appState := AppPhase.CELEBRATION } ∧
    (addDistance s (some a)).progress.currentKm ≤ s.progress.totalKm := by
  rw [addDistance_some, if_pos ha]
  exact ⟨rfl, min_le_right _ _⟩

/-- Witness for C4 at a concrete TRACKING state with a 5 km add. -/
theorem addDistance_valid_witness :
    sampleTracking.appState = AppPhase.TRACKING ∧ (0 : ℝ) < 5 ∧
    addDistance sampleTracking (some 5) =
      { sampleTracking with
        progress :=
          { currentKm := min (sampleTracking.progress.currentKm + 5)
              sampleTracking.progress.totalKm,
            totalKm := sampleTracking.progress.totalKm,
            percentage := min (sampleTracking.progress.currentKm + 5)
              sampleTracking.progress.totalKm / sampleTracking.progress.totalKm },
        appState := AppPhase.CELEBRATION } ∧
    (addDistance sampleTracking (some 5)).progress.currentKm ≤
      sampleTracking.progress.totalKm :=
  ⟨rfl, by norm_num,
    (addDistance_valid sampleTracking 5 rfl (by norm_num)).1,
    (addDistance_valid sampleTracking 5 rfl (by norm_num)).2⟩

/-- Claim C7: in a TRACKING state, a non-numeric input (`parseFloat`
yields NaN, modelled as `none`) or a non-positive parsed value leaves the
whole state unchanged: nothing is applied and nothing is reported. -/
theorem addDistance_invalid_noop (s : AppState) (i : Option ℝ)
    (hs : s.appState = AppPhase.TRACKING)
    (hbad : i = none ∨ ∃ a, i = some a ∧ a ≤ 0) :
    addDistance s i = s := by
  rcases hbad with h | ⟨a, h, ha⟩
  · subst h
    rfl
  · subst h
    rw [addDistance_some, if_neg (not_lt.mpr ha)]

/-- Witness for C7: NaN input and a negative input are no-ops on a
concrete TRACKING state. -/
theorem addDistance_invalid_noop_witness :
    sampleTracking.appState = AppPhase.TRACKING ∧
    addDistance sampleTracking none = sampleTracking ∧
    addDistance sampleTracking (some (-2)) = sampleTracking :=
  ⟨rfl,
    addDistance_invalid_noop sampleTracking none rfl (Or.inl rfl),
    addDistance_invalid_noop sampleTracking (some (-2)) rfl
      (Or.inr ⟨-2, rfl, by norm_num⟩)⟩

/-- Claim C8 (amended): in SETUP, a map selection sets `start` when it is
unset, otherwise sets `end` when it is unset, otherwise changes nothing;
since the initial (and reset) state pre-seeds `start` with the default
location, the first selection from the initial state sets `end`, not
`start`. -/
theorem handleMapClick_selection (s : AppState) (p : Point)
    (hs : s.appState = AppPhase.SETUP) :
    (s.route.start = none →
      handleMapClick s p = { s with route := { s.route with start := some p } }) ∧
    (∀ q, s.route.start = some q → s.route.endPoint = none →
      handleMapClick s p = { s with route := { s.route with endPoint := some p } }) ∧
    (∀ q r, s.route.start = some q → s.route.endPoint = some r →
      handleMapClick s p = s) ∧
    ((handleMapClick initialState p).route.start = some (Point.mk 48.20967 13.48831) ∧
      (handleMapClick initialState p).route.endPoint = some p) := by
  have hcond : ¬s.appState ≠ AppPhase.SETUP := by
    rw [hs]
    simp
  refine ⟨fun h => ?_, fun q hq he => ?_, fun q r hq hr => ?_, ?_⟩
  · rw [handleMapClick, if_neg hcond, h]
  · rw [handleMapClick, if_neg hcond, hq, he]
  · rw [handleMapClick, if_neg hcond, hq, hr]
  · have hi : handleMapClick initialState p =
        { appState := AppPhase.SETUP,
          route := { start := some (Point.mk 48.20967 13.48831), endPoint := some p,
                     path := [], distance := 0 },
          progress := { currentKm := 0, totalKm := 0, percentage := 0 } } := by
      rw [handleMapClick, if_neg (by simp [initialState])]
      rfl
    rw [hi]
    exact ⟨rfl, rfl⟩

/-- Witness for C8: from a SETUP state with no start, a click sets the
start point; from the initial state, a click sets the end point. -/
theorem handleMapClick_selection_witness :
    handleMapClick sampleSetupEmpty (Point.mk 2 3) =
      { sampleSetupEmpty with
        route := { sampleSetupEmpty.route with start := some (Point.mk 2 3) } } ∧
    (handleMapClick initialState (Point.mk 2 3)).route.endPoint =
      some (Point.mk 2 3) :=
  ⟨(handleMapClick_selection sampleSetupEmpty (Point.mk 2 3) rfl).1 rfl,
    (handleMapClick_selection sampleSetupEmpty (Point.mk 2 3) rfl).2.2.2.2⟩

/-- Counterexample to C8 as stated: in the initial state `start` is
already pre-set to the default location, so the FIRST map selection does
not set `start` to the clicked point; it sets `end`. -/
theorem handleMapClick_first_selection_counterexample :
    (handleMapClick initialState (Point.mk 1 2)).route.start ≠ some (Point.mk 1 2) ∧
    (handleMapClick initialState (Point.mk 1 2)).route.start =
      some (Point.mk 48.20967 13.48831) ∧
    (handleMapClick initialState (Point.mk 1 2)).route.endPoint = some (Point.mk 1 2) := by
  have hi : handleMapClick initialState (Point.mk 1 2) =
      { appState := AppPhase.SETUP,
        route := { start := some (Point.mk 48.20967 13.48831),
                   endPoint := some (Point.mk 1 2), path := [], distance := 0 },
        progress := { currentKm := 0, totalKm := 0, percentage := 0 } } := by
    rw [handleMapClick, if_neg (by simp [initialState])]
    rfl
  rw [hi]
  refine ⟨fun hc => ?_, rfl, rfl⟩
  have heq : Point.mk (48.20967 : ℝ) 13.48831 = Point.mk 1 2 := Option.some.inj hc
  have hlat : (48.20967 : ℝ) = 1 := congrArg Point.lat heq
  norm_num at hlat

/-- Claim C9: outside SETUP, map clicks and marker clicks leave the
entire route record (start, end, path, distance) unchanged. -/
theorem non_setup_clicks_frame (s : AppState) (p : Point) (t : MarkerType)
    (hs : s.appState ≠ AppPhase.SETUP) :
    (handleMapClick s p).route = s.route ∧
    (handleMarkerClick s t).route = s.route := by
  rw [handleMapClick, if_pos hs, handleMarkerClick.eq_def, if_pos hs]
  exact ⟨rfl, rfl⟩

/-- Witness for C9 on a concrete TRACKING state. -/
theorem non_setup_clicks_frame_witness :
    sampleTracking.appState ≠ AppPhase.SETUP ∧
    (handleMapClick sampleTracking (Point.mk 7 7)).route = sampleTracking.route ∧
    (handleMarkerClick sampleTracking MarkerType.startMarker).route =
      sampleTracking.route :=
  ⟨by simp [sampleTracking],
    (non_setup_clicks_frame sampleTracking (Point.mk 7 7) MarkerType.startMarker
      (by simp [sampleTracking])).1,
    (non_setup_clicks_frame sampleTracking (Point.mk 7 7) MarkerType.startMarker
      (by simp [sampleTracking])).2⟩

/-- Claim C10: a valid add-distance event changes neither `totalKm` nor
the route record; only `currentKm` and `percentage` of the progress
record (and the phase) are modified. -/
theorem addDistance_total_frame (s : AppState) (a : ℝ) (ha : 0 < a) :
    (addDistance s (some a)).progress.totalKm = s.progress.totalKm ∧
    (addDistance s (some a)).route = s.route := by
  rw [addDistance_some, if_pos ha]
  exact ⟨rfl, rfl⟩

/-- Witness for C10 on a concrete TRACKING state. -/
theorem addDistance_total_frame_witness :
    (0 : ℝ) < 5 ∧
    (addDistance sampleTracking (some 5)).progress.totalKm =
      sampleTracking.progress.totalKm ∧
    (addDistance sampleTracking (some 5)).route = sampleTracking.route :=
  ⟨by norm_num,
    (addDistance_total_frame sampleTracking 5 (by norm_num)).1,
    (addDistance_total_frame sampleTracking 5 (by norm_num)).2⟩
